import Mathlib

/-!
# Verification of the career-sewa-backend connection lifecycle and health classifier

Shallow embedding of the repository's core stateful component
(`DatabaseConnection` in `src/config/database.js`, provided as
`src/unnamed/part_004`) and of the health-classification layer
(`calculateOverallHealth`, `getDetailedHealth`, `getReadinessProbe` in the
health controller, and `APIResponse` in `src/utils/APIResponse.js`).

Modelling conventions:
* JS numbers used for the retry delay are modelled as `ℚ` (all values that
  arise, `5000 * 1.5^k`, are exact in binary floating point, so `ℚ` is
  faithful).
* The mongoose driver is modelled by a `ReadyState` field of the state plus
  an explicit list/stream of attempt outcomes fed to `connect`; ambient
  driver events ("connected"/"error"/"disconnected") are separate
  transitions of a step relation, enabled once the event listeners have been
  registered (`setupConnectionEvents` runs at the start of every `connect`).
  Per the specification's state machine, a driver "error"/"disconnected"
  event leaves the driver disconnected, and a failed `mongoose.disconnect`
  leaves the driver connected (state changes only on confirmed closure).
* Exceptions are modelled with `Except`; `process.exit(1)` is a distinguished
  terminal result.
-/

namespace CareerSewa

/-- mongoose `connection.readyState`: 0 disconnected, 1 connected,
2 connecting, 3 disconnecting. -/
inductive ReadyState
  | disconnected
  | connected
  | connecting
  | disconnecting
deriving DecidableEq, Repr

/-- Numeric value of a mongoose ready state. -/
def ReadyState.toNum : ReadyState → Nat
  | .disconnected => 0
  | .connected => 1
  | .connecting => 2
  | .disconnecting => 3

/-- The mutable fields of the `DatabaseConnection` singleton
(`this.isConnected`, `this.connectionRetries`, `this.retryDelay`), together
with the driver's ready state and whether `setupConnectionEvents` has
registered the event listeners. -/
structure DBState where
  isConnected : Bool
  connectionRetries : Nat
  retryDelay : ℚ
  readyState : ReadyState
  eventsWired : Bool
deriving DecidableEq, Repr

/-- `this.maxRetries = 5`. -/
def maxRetries : Nat := 5

/-- `this.retryDelay = 5000` (constructor). -/
def initialRetryDelay : ℚ := 5000

/-- The exponential backoff factor `1.5` (`this.retryDelay *= 1.5`). -/
def backoffMultiplier : ℚ := 3 / 2

/-- State of a freshly constructed `DatabaseConnection` (before any call). -/
def initialState : DBState :=
  { isConnected := false
    connectionRetries := 0
    retryDelay := initialRetryDelay
    readyState := .disconnected
    eventsWired := false }

/-- How a `connect()` call returned: normally, by throwing the connection
error (retries exhausted, non-production), or by `process.exit(1)`
(retries exhausted in production). -/
inductive ConnectResult
  | ok
  | threw
  | exited
deriving DecidableEq, Repr

/-- Observable trace of one `connect()` call: number of driver connection
attempts made, the backoff delays waited (in ms, in order), the way the call
returned, and the final state. -/
structure ConnectTrace where
  attempts : Nat
  delays : List ℚ
  result : ConnectResult
  finalState : DBState
deriving DecidableEq, Repr

/-- `DatabaseConnection.connect` together with its retry handler
`handleConnectionError` (part_004 lines 23-58 and 147-178).

`outcomes` gives the result of each driver connection attempt in order
(`true` = `mongoose.connect` resolves); when the list is exhausted further
attempts fail.  Each call first runs `setupConnectionEvents` (wires the
listeners), then attempts the driver connection.  On success it sets
`isConnected := true` and `connectionRetries := 0`.  On failure the handler
sets `isConnected := false`, increments `connectionRetries`; while the
counter is `≤ maxRetries` it waits the current `retryDelay`, multiplies the
delay by 1.5 and recursively calls `connect`; otherwise it exits the process
(production) or rethrows. Note the handler never resets `retryDelay`. -/
def connectAux (isProd : Bool) (s : DBState) (outcomes : List Bool) : ConnectTrace :=
  let s1 : DBState := { s with eventsWired := true }
  if outcomes.headD false then
    { attempts := 1
      delays := []
      result := .ok
      finalState :=
        { s1 with isConnected := true, connectionRetries := 0, readyState := .connected } }
  else
    let s2 : DBState :=
      { s1 with
        isConnected := false
        readyState := .disconnected
        connectionRetries := s1.connectionRetries + 1 }
    if h : s2.connectionRetries ≤ maxRetries then
      let wait : ℚ := s2.retryDelay
      let s3 : DBState := { s2 with retryDelay := s2.retryDelay * backoffMultiplier }
      let rest := connectAux isProd s3 outcomes.tail
      { attempts := rest.attempts + 1
        delays := wait :: rest.delays
        result := rest.result
        finalState := rest.finalState }
    else
      { attempts := 1
        delays := []
        result := if isProd then .exited else .threw
        finalState := s2 }
termination_by maxRetries + 1 - s.connectionRetries
decreasing_by
  simp only [DBState.mk.injEq] at *
  simp [maxRetries] at h ⊢
  omega

/-- `connect()` entry point. -/
def connect (isProd : Bool) (s : DBState) (outcomes : List Bool) : ConnectTrace :=
  connectAux isProd s outcomes

/-- Errors crossing the JS call boundary in the modelled fragment. -/
inductive JsError
  | driverClose (msg : String)
  | connectFailed (msg : String)
  | internalServerError (msg : String)
  | disconnectionFailure (msg : String)
deriving DecidableEq, Repr

/-- Modelled from the spec: the spec says a failing `disconnect()` propagates
the close error "wrapped as a disconnection failure". No such wrapper exists
in `src` (the code rethrows the driver error unchanged); this discriminator
recognises the wrapper the spec describes, for comparison with the code. -/
def JsError.isDisconnectionFailureWrapper : JsError → Bool
  | .disconnectionFailure _ => true
  | _ => false

/-- `DatabaseConnection.disconnect` (part_004 lines 64-78).
`closeResult` is the outcome of `await mongoose.disconnect()`.  The close is
attempted only when `this.isConnected`; the flag is cleared only after the
close resolves; on a rejected close the error is rethrown unchanged and no
field is modified (per the spec's state machine, an unconfirmed closure
leaves the driver connected). -/
def disconnect (s : DBState) (closeResult : Except JsError Unit) :
    Except JsError Unit × DBState :=
  if s.isConnected then
    match closeResult with
    | .ok _ => (.ok (), { s with isConnected := false, readyState := .disconnected })
    | .error e => (.error e, s)
  else
    (.ok (), s)

/-- Snapshot returned by `DatabaseConnection.getConnectionStatus`
(part_004 lines 184-204); host/port/name fields are omitted (pure
pass-throughs of driver metadata). -/
structure ConnectionStatus where
  isConnected : Bool
  readyState : Nat
  currentState : String
deriving DecidableEq, Repr

/-- The `{0: "disconnected", 1: "connected", 2: "connecting",
3: "disconnecting"}[readyState]` lookup in `getConnectionStatus`. -/
def stateNameOf : Nat → String
  | 0 => "disconnected"
  | 1 => "connected"
  | 2 => "connecting"
  | 3 => "disconnecting"
  | _ => "undefined"

/-- `DatabaseConnection.getConnectionStatus`. -/
def getConnectionStatus (s : DBState) : ConnectionStatus :=
  { isConnected := s.isConnected
    readyState := s.readyState.toNum
    currentState := stateNameOf s.readyState.toNum }

/-- `DatabaseConnection.isHealthy` (part_004 lines 210-225).
`pingOk` is whether `mongoose.connection.db.admin().ping()` would resolve.
Returns `(result, didPing)`: the boolean the call resolves with (a thrown
ping error is caught and converted to `false`, so the call never rejects),
and whether a ping was issued at all. -/
def isHealthy (s : DBState) (pingOk : Bool) : Bool × Bool :=
  if !s.isConnected || s.readyState.toNum ≠ 1 then
    (false, false)
  else if pingOk then
    (true, true)
  else
    (false, true)

/-- One atomic transition of the manager: a `connect()` call (with any
environment and any driver outcomes), a `disconnect()` call (with any close
outcome), or an ambient mongoose event handled by the listeners registered
in `setupConnectionEvents` (part_004 lines 84-104); events require the
listeners to be wired, which happens at the start of every `connect()`. -/
inductive Step : DBState → DBState → Prop
  | connectCall (isProd : Bool) (outs : List Bool) (s : DBState) :
      Step s (connect isProd s outs).finalState
  | disconnectCall (s : DBState) (closeResult : Except JsError Unit) :
      Step s (disconnect s closeResult).2
  | evConnected (s : DBState) :
      s.eventsWired = true →
      Step s { s with isConnected := true, readyState := .connected }
  | evError (s : DBState) :
      s.eventsWired = true →
      Step s { s with isConnected := false, readyState := .disconnected }
  | evDisconnected (s : DBState) :
      s.eventsWired = true →
      Step s { s with isConnected := false, readyState := .disconnected }

/-- States reachable from a freshly constructed manager. -/
def Reachable (s : DBState) : Prop :=
  Relation.ReflTransGen Step initialState s

/-! ## Health classifier (health controller in the repository) -/

/-- JS object indexing `healthChecks[service]?.status`: the checks map is
modelled as an association list from subsystem name to status string. -/
def jsLookup (checks : List (String × String)) (k : String) : Option String :=
  match checks with
  | [] => none
  | (k', v) :: t => if k = k' then some v else jsLookup t k

/-- `criticalServices = ["application", "database"]` in
`calculateOverallHealth`. -/
def criticalServices : List String := ["application", "database"]

/-- `warningServices = ["memory", "cpu", "environment"]` in
`calculateOverallHealth`. -/
def warningServices : List String := ["memory", "cpu", "environment"]

/-- The loop test `healthChecks[service]?.status !== "healthy"`; a missing
subsystem entry (`undefined`) also differs from `"healthy"`. -/
def statusNotHealthy (checks : List (String × String)) (name : String) : Bool :=
  match jsLookup checks name with
  | some st => st ≠ "healthy"
  | none => true

/-- `calculateOverallHealth` (health controller): return `"unhealthy"` as
soon as a critical service's status differs from `"healthy"`, else
`"degraded"` as soon as a warning service's does, else `"healthy"`. -/
def calculateOverallHealth (checks : List (String × String)) : String :=
  if criticalServices.any (statusNotHealthy checks) then "unhealthy"
  else if warningServices.any (statusNotHealthy checks) then "degraded"
  else "healthy"

/-- Modelled from the spec: the strict precedence fold the specification
describes ("If any critical subsystem is not healthy, overall = unhealthy.
Else if any warning subsystem is not healthy, overall = degraded. Else
healthy"), with critical = application and the connection (whose entry in
the checks map is keyed "database") and warning = memory, cpu,
environment. -/
def overallHealthSpecFold (checks : List (String × String)) : String :=
  if ["application", "database"].any (statusNotHealthy checks) then "unhealthy"
  else if ["memory", "cpu", "environment"].any (statusNotHealthy checks) then "degraded"
  else "healthy"

/-- The response envelope built by `APIResponse` (constructor at
`src/utils/APIResponse.js` lines 13-19; the `timestamp` field is not
modelled). -/
structure APIResponseM (α : Type) where
  statusCode : Nat
  data : α
  message : String
  success : Bool
deriving DecidableEq, Repr

/-- `APIResponse.success(data, message, statusCode)` — always sets
`success = true` (APIResponse.js lines 28-30). -/
def APIResponseM.mkSuccess {α : Type} (data : α) (message : String)
    (statusCode : Nat) : APIResponseM α :=
  { statusCode := statusCode, data := data, message := message, success := true }

/-- `APIResponse.serviceUnavailable(message, data)` — status 503,
`success = false` (APIResponse.js lines 127-128). -/
def APIResponseM.mkServiceUnavailable {α : Type} (message : String) (data : α) :
    APIResponseM α :=
  { statusCode := 503, data := data, message := message, success := false }

instance {α β : Type} [DecidableEq α] [DecidableEq β] : DecidableEq (Except α β) := by
  intro a b
  cases a <;> cases b <;>
    first
      | · rename_i x y
          by_cases h : x = y
          · exact isTrue (by rw [h])
          · exact isFalse (by intro hc; cases hc; exact h rfl)
      | exact isFalse (by intro hc; cases hc)

/-- Outcomes of the individual computations inside `getDetailedHealth`, one
per subsystem probe: `Except.error` means the JS computation for that
subsystem would throw.  `dbProbe` is the result of the database section's
`database.isHealthy()` (`.ok b` = resolves with `b`); `memProbe` is the
memory-usage computation, which the code runs with no try/catch of its
own. -/
structure ProbeRun where
  dbProbe : Except String Bool
  memProbe : Except String Unit
  cpuProbe : Except String Unit
  isWindows : Bool
  diskProbe : Except String Unit
  envOk : Bool
  depsProbe : Except String Unit
deriving DecidableEq, Repr

/-- The `healthChecks` map as assembled by `getDetailedHealth`, assuming the
unguarded computations (application, memory, environment, externalServices)
do not throw.  Each guarded section mirrors its own try/catch: the database
catch stores status `"unhealthy"`, the cpu and disk catches store `"error"`,
the dependencies catch stores the `"healthy"` fallback. -/
def detailedChecks (r : ProbeRun) : List (String × String) :=
  [ ("application", "healthy")
  , ("database",
      match r.dbProbe with
      | .ok h => if h then "healthy" else "unhealthy"
      | .error _ => "unhealthy")
  , ("memory", "healthy")
  , ("cpu", match r.cpuProbe with | .ok _ => "healthy" | .error _ => "error")
  , ("disk",
      if r.isWindows then "skipped"
      else match r.diskProbe with | .ok _ => "healthy" | .error _ => "error")
  , ("environment", if r.envOk then "healthy" else "unhealthy")
  , ("dependencies", match r.depsProbe with | .ok _ => "healthy" | .error _ => "healthy")
  , ("externalServices", "healthy") ]

/-- Payload of the detailed health response (`status` = overall verdict,
`checks` = per-subsystem statuses). -/
structure DetailedData where
  status : String
  checks : List (String × String)
deriving DecidableEq, Repr

/-- `getDetailedHealth` (health controller): builds the checks map, computes
the overall verdict, and replies via `APIResponse.success` with status 200
when the verdict is `"healthy"` and 207 otherwise.  A throw from the
unguarded memory computation escapes to the handler's outer catch, which
discards all entries and forwards `APIError.internalServerError("Health
check failed")` (a 500) to the error middleware, modelled as
`Except.error`. -/
def getDetailedHealth (r : ProbeRun) : Except JsError (APIResponseM DetailedData) :=
  match r.memProbe with
  | .error _ => .error (.internalServerError "Health check failed")
  | .ok _ =>
    let checks := detailedChecks r
    let overall := calculateOverallHealth checks
    if overall = "healthy" then
      .ok (APIResponseM.mkSuccess ⟨overall, checks⟩ "All systems operational" 200)
    else
      .ok (APIResponseM.mkSuccess ⟨overall, checks⟩ "Some systems have issues" 207)

/-- `getReadinessProbe` (health controller): `isReady` is the boolean
`await database.isHealthy()` resolves with (that call never rejects).
`data` is the `ready` field of the reply payload. -/
def getReadinessProbe (isReady : Bool) : APIResponseM Bool :=
  if isReady then
    APIResponseM.mkSuccess true "Service is ready" 200
  else
    APIResponseM.mkServiceUnavailable "Service not ready - database not connected" false

/-- A Connected state with zero retries, base delay and wired listeners:
the state reached by a `connect()` whose first driver attempt succeeds. -/
def connectedIdleState : DBState :=
  { isConnected := true
    connectionRetries := 0
    retryDelay := 5000
    readyState := .connected
    eventsWired := true }

/-- A reachable state in which the retry counter is 0 but the retry delay has
been inflated to 7500 ms by an earlier failure (fail once, then succeed on
the retry, then observe an ambient disconnect). -/
def inflatedDelayState : DBState :=
  { isConnected := false
    connectionRetries := 0
    retryDelay := 7500
    readyState := .disconnected
    eventsWired := true }

/-- A detailed-health run in which only the database section throws. -/
def dbThrowRun : ProbeRun :=
  { dbProbe := .error "boom"
    memProbe := .ok ()
    cpuProbe := .ok ()
    isWindows := false
    diskProbe := .ok ()
    envOk := true
    depsProbe := .ok () }

/-- A detailed-health run in which the unguarded memory computation throws. -/
def memThrowRun : ProbeRun :=
  { dbProbe := .ok true
    memProbe := .error "oom"
    cpuProbe := .ok ()
    isWindows := false
    diskProbe := .ok ()
    envOk := false
    depsProbe := .ok () }

/-- A detailed-health run in which every probe succeeds but the environment
check reports unhealthy, so the overall verdict is degraded. -/
def degradedRun : ProbeRun :=
  { dbProbe := .ok true
    memProbe := .ok ()
    cpuProbe := .ok ()
    isWindows := false
    diskProbe := .ok ()
    envOk := false
    depsProbe := .ok () }

/-- A detailed-health run in which every probe succeeds. -/
def allHealthyRun : ProbeRun :=
  { dbProbe := .ok true
    memProbe := .ok ()
    cpuProbe := .ok ()
    isWindows := false
    diskProbe := .ok ()
    envOk := true
    depsProbe := .ok () }

/-! ## Helper lemmas -/

theorem connectAux_eq_ok (isProd : Bool) (s : DBState) (outs : List Bool)
    (h : outs.headD false = true) :
    connectAux isProd s outs =
      { attempts := 1
        delays := []
        result := .ok
        finalState :=
          { isConnected := true
            connectionRetries := 0
            retryDelay := s.retryDelay
            readyState := .connected
            eventsWired := true } } := by
  rw [connectAux.eq_def, h]
  simp

theorem connectAux_eq_retry (isProd : Bool) (s : DBState) (outs : List Bool)
    (h : outs.headD false = false) (hr : s.connectionRetries + 1 ≤ maxRetries) :
    connectAux isProd s outs =
      { attempts :=
          (connectAux isProd
            { isConnected := false
              connectionRetries := s.connectionRetries + 1
              retryDelay := s.retryDelay * backoffMultiplier
              readyState := .disconnected
              eventsWired := true } outs.tail).attempts + 1
        delays := s.retryDelay ::
          (connectAux isProd
            { isConnected := false
              connectionRetries := s.connectionRetries + 1
              retryDelay := s.retryDelay * backoffMultiplier
              readyState := .disconnected
              eventsWired := true } outs.tail).delays
        result :=
          (connectAux isProd
            { isConnected := false
              connectionRetries := s.connectionRetries + 1
              retryDelay := s.retryDelay * backoffMultiplier
              readyState := .disconnected
              eventsWired := true } outs.tail).result
        finalState :=
          (connectAux isProd
            { isConnected := false
              connectionRetries := s.connectionRetries + 1
              retryDelay := s.retryDelay * backoffMultiplier
              readyState := .disconnected
              eventsWired := true } outs.tail).finalState } := by
  rw [connectAux.eq_def, h]
  simp only [Bool.false_eq_true, if_false]
  rw [dif_pos hr]

theorem connectAux_eq_terminal (isProd : Bool) (s : DBState) (outs : List Bool)
    (h : outs.headD false = false) (hr : ¬ s.connectionRetries + 1 ≤ maxRetries) :
    connectAux isProd s outs =
      { attempts := 1
        delays := []
        result := if isProd then .exited else .threw
        finalState :=
          { isConnected := false
            connectionRetries := s.connectionRetries + 1
            retryDelay := s.retryDelay
            readyState := .disconnected
            eventsWired := true } } := by
  rw [connectAux.eq_def, h]
  simp only [Bool.false_eq_true, if_false]
  rw [dif_neg hr]

theorem connectAux_flag_iff_ready (isProd : Bool) (s : DBState) (outs : List Bool) :
    ((connectAux isProd s outs).finalState.isConnected = true ↔
      (connectAux isProd s outs).finalState.readyState = .connected) ∧
    ((connectAux isProd s outs).result = .ok →
      (connectAux isProd s outs).finalState.connectionRetries = 0) := by
  induction s, outs using connectAux.induct isProd with
  | case1 s outs hhead =>
      rw [connectAux_eq_ok isProd s outs hhead]
      simp
  | case2 s outs s1 hhead s2 h s3 ih =>
      rw [connectAux_eq_retry isProd s outs (by simpa using hhead) h]
      exact ih
  | case3 s outs s1 hhead s2 h =>
      rw [connectAux_eq_terminal isProd s outs (by simpa using hhead) h]
      constructor
      · simp
      · intro hres
        cases hisProd : isProd <;> simp [hisProd] at hres

theorem reach_connectedIdleState : Reachable connectedIdleState := by
  have h1 : Step initialState (connect false initialState [true]).finalState :=
    Step.connectCall false [true] initialState
  have h2 : (connect false initialState [true]).finalState = connectedIdleState := by
    rw [connect, connectAux_eq_ok false initialState [true] rfl]
    rfl
  exact Relation.ReflTransGen.single (h2 ▸ h1)

theorem reach_inflatedDelayState : Reachable inflatedDelayState := by
  have h2 : (connect false initialState [false, true]).finalState =
      { isConnected := true
        connectionRetries := 0
        retryDelay := 7500
        readyState := .connected
        eventsWired := true } := by
    simp [connect, connectAux, maxRetries, initialState, initialRetryDelay, backoffMultiplier]
    try norm_num
  have h1 : Step initialState (connect false initialState [false, true]).finalState :=
    Step.connectCall false [false, true] initialState
  refine Relation.ReflTransGen.tail (Relation.ReflTransGen.single (h2 ▸ h1)) ?_
  exact Step.evDisconnected _ rfl

theorem step_preserves_flag_iff (a b : DBState) (hstep : Step a b)
    (ih : a.isConnected = true ↔ a.readyState = .connected) :
    b.isConnected = true ↔ b.readyState = .connected := by
  cases hstep with
  | connectCall isProd outs =>
      exact (connectAux_flag_iff_ready isProd a outs).1
  | disconnectCall closeResult =>
      rename_i r
      simp only [disconnect]
      cases ha : a.isConnected with
      | false => simpa [ha] using ih
      | true =>
          cases r with
          | ok u => simp
          | error e => simpa [ha] using ih
  | evConnected hw => simp
  | evError hw => simp
  | evDisconnected hw => simp

/-! ## Claim theorems -/

/-- C3: starting from a freshly constructed manager with the store
unreachable (every driver attempt fails, modelled by the empty outcome
list), `connect()` makes exactly 6 driver connection attempts (1 initial +
5 retries), waiting 5000, 7500, 11250, 16875 and 25312.5 ms before the
retries, after which the failure is terminal: `process.exit(1)` when the
environment is production, a propagated error otherwise. -/
theorem connect_unreachable_store_scenario :
    (connect true initialState []).attempts = 6 ∧
    (connect false initialState []).attempts = 6 ∧
    (connect true initialState []).delays = [5000, 7500, 11250, 16875, 50625 / 2] ∧
    (connect false initialState []).delays = [5000, 7500, 11250, 16875, 50625 / 2] ∧
    (connect true initialState []).result = .exited ∧
    (connect false initialState []).result = .threw := by
  refine ⟨?_, ?_, ?_, ?_, ?_, ?_⟩ <;>
    · simp [connect, connectAux, maxRetries, initialState, initialRetryDelay, backoffMultiplier]
      try norm_num

/-- C4: in every state reachable by any sequence of `connect()`,
`disconnect()` and ambient driver-event transitions,
`getConnectionStatus().isConnected` is true iff the connection state machine
(the driver's ready state) is in the Connected state. -/
theorem status_isConnected_iff_connected (s : DBState) (h : Reachable s) :
    (getConnectionStatus s).isConnected = true ↔ s.readyState = .connected := by
  have key : s.isConnected = true ↔ s.readyState = .connected := by
    induction h with
    | refl => simp [initialState]
    | tail _ hbc ih => exact step_preserves_flag_iff _ _ hbc ih
  simpa [getConnectionStatus] using key

/-- Witness for C4 at the initial state. -/
theorem status_isConnected_iff_connected_witness :
    (getConnectionStatus initialState).isConnected = true ↔
      initialState.readyState = .connected :=
  status_isConnected_iff_connected initialState Relation.ReflTransGen.refl

/-- C1 is false as stated: from a reachable Connected state, `connect()`
does not return immediately — it initiates a new driver connection attempt
(the code has no already-connected early return). -/
theorem connect_already_connected_cex :
    Reachable connectedIdleState ∧
    connectedIdleState.isConnected = true ∧
    connectedIdleState.readyState = .connected ∧
    (connect false connectedIdleState [true]).attempts = 1 ∧
    ¬(connect false connectedIdleState [true]).attempts = 0 := by
  refine ⟨reach_connectedIdleState, rfl, rfl, ?_, ?_⟩ <;>
    rw [connect, connectAux_eq_ok false connectedIdleState [true] rfl] <;> simp

/-- C1 amended: `connect()` on an already-Connected state is not
attempt-free; it performs exactly one driver connection attempt.  When that
attempt succeeds, the call returns normally and the state (including the
retry counter, 0 in a Connected state reached by a successful connect) is
left as it was. -/
theorem connect_already_connected_amended (isProd : Bool) (s : DBState)
    (outs : List Bool) (hc : s.isConnected = true) (hr : s.readyState = .connected)
    (hw : s.eventsWired = true) (hn : s.connectionRetries = 0)
    (ho : outs.headD false = true) :
    (connect isProd s outs).attempts = 1 ∧
    (connect isProd s outs).result = .ok ∧
    (connect isProd s outs).finalState = s := by
  rw [connect, connectAux_eq_ok isProd s outs ho]
  refine ⟨rfl, rfl, ?_⟩
  obtain ⟨c, cr, rd, rs, w⟩ := s
  simp only at hc hr hw hn
  simp [hc, hr, hw, hn]

/-- Witness for the amended C1 at a concrete Connected state. -/
theorem connect_already_connected_amended_witness :
    (connect false connectedIdleState [true]).attempts = 1 ∧
    (connect false connectedIdleState [true]).result = .ok ∧
    (connect false connectedIdleState [true]).finalState = connectedIdleState :=
  connect_already_connected_amended false connectedIdleState [true] rfl rfl rfl rfl rfl

/-- C2 is false as stated: `inflatedDelayState` is reachable (one failure,
then a successful retry, then an ambient disconnect), has attempt counter 0,
yet the delay waited before the first retry of the next `connect()` is
7500 ms, not `baseDelay * backoffMultiplier^0 = 5000` ms — `retryDelay` is
never reset after a success. -/
theorem backoff_base_delay_cex :
    Reachable inflatedDelayState ∧
    inflatedDelayState.connectionRetries = 0 ∧
    (connect false inflatedDelayState []).delays.head? = some 7500 ∧
    initialRetryDelay * backoffMultiplier ^ (0 : ℕ) = 5000 ∧
    (7500 : ℚ) ≠ 5000 := by
  refine ⟨reach_inflatedDelayState, rfl, ?_, ?_, ?_⟩
  · simp [connect, connectAux, maxRetries, inflatedDelayState, backoffMultiplier]
  · norm_num [initialRetryDelay, backoffMultiplier]
  · norm_num

/-- C2 amended: from any state whose attempt counter is 0, the delay before
the Nth retry of an exhausting `connect()` equals the state's current
`retryDelay` times `1.5^(N-1)`; that current value is the 5000 ms base only
until the first retry ever performed, because `retryDelay` is multiplied by
1.5 at each retry and never reset.  The attempt counter itself does reset to
0 immediately after any successful connect. -/
theorem backoff_amended (isProd : Bool) (s : DBState)
    (h0 : s.connectionRetries = 0) :
    (connect isProd s []).delays =
      [s.retryDelay, s.retryDelay * backoffMultiplier,
        s.retryDelay * backoffMultiplier ^ (2 : ℕ),
        s.retryDelay * backoffMultiplier ^ (3 : ℕ),
        s.retryDelay * backoffMultiplier ^ (4 : ℕ)] ∧
    initialState.retryDelay = initialRetryDelay ∧
    (∀ outs : List Bool, (connect isProd s outs).result = .ok →
      (connect isProd s outs).finalState.connectionRetries = 0) := by
  refine ⟨?_, rfl, fun outs => (connectAux_flag_iff_ready isProd s outs).2⟩
  obtain ⟨c, cr, rd, rs, w⟩ := s
  simp only at h0
  subst h0
  simp [connect, connectAux, maxRetries, backoffMultiplier]
  ring_nf
  norm_num

/-- Witness for the amended C2 at the freshly constructed state. -/
theorem backoff_amended_witness :
    (connect false initialState []).delays =
      [initialState.retryDelay, initialState.retryDelay * backoffMultiplier,
        initialState.retryDelay * backoffMultiplier ^ (2 : ℕ),
        initialState.retryDelay * backoffMultiplier ^ (3 : ℕ),
        initialState.retryDelay * backoffMultiplier ^ (4 : ℕ)] :=
  (backoff_amended false initialState rfl).1

/-- C5: `isHealthy()` returns false without issuing a ping whenever the
manager is not in the Connected state (flag cleared or driver ready state
not 1); when Connected it returns the ping outcome (true only on a
successful probe, false on a failed one, having pinged); totality of the
Lean function reflects that the JS method catches every probe error and
never rejects. -/
theorem isHealthy_spec (s : DBState) (p : Bool) :
    (s.isConnected = false ∨ s.readyState ≠ .connected →
      isHealthy s p = (false, false)) ∧
    ((isHealthy s p).1 = true → p = true) ∧
    (s.isConnected = true → s.readyState = .connected → isHealthy s p = (p, true)) := by
  obtain ⟨c, cr, rd, rs, w⟩ := s
  cases c <;> cases rs <;> cases p <;>
    simp [isHealthy, ReadyState.toNum]

/-- Witness for C5: no ping in the disconnected state, ping with both
outcomes in the connected state. -/
theorem isHealthy_spec_witness :
    isHealthy initialState true = (false, false) ∧
    isHealthy connectedIdleState false = (false, true) ∧
    isHealthy connectedIdleState true = (true, true) :=
  ⟨(isHealthy_spec initialState true).1 (Or.inl rfl),
    (isHealthy_spec connectedIdleState false).2.2 rfl rfl,
    (isHealthy_spec connectedIdleState true).2.2 rfl rfl⟩

/-- C6 is false as stated: when the underlying close fails, the error
reaching the caller is the driver's close error itself, not a value wrapped
as a disconnection failure (the state is indeed unchanged). -/
theorem disconnect_unwrapped_error_cex :
    (disconnect connectedIdleState (.error (.driverClose "boom"))).1 =
      .error (.driverClose "boom") ∧
    JsError.isDisconnectionFailureWrapper (.driverClose "boom") = false ∧
    (disconnect connectedIdleState (.error (.driverClose "boom"))).2 =
      connectedIdleState := by
  refine ⟨?_, rfl, ?_⟩ <;> simp [disconnect, connectedIdleState]

/-- C6 amended: `disconnect()` is a no-op when the flag is already cleared;
when Connected it transitions to Disconnected only after a confirmed close;
when the close fails the underlying error is propagated to the caller
unchanged (not wrapped) and the state is untouched (still marked
connected). -/
theorem disconnect_amended (s : DBState) (r : Except JsError Unit) :
    (s.isConnected = false → disconnect s r = (.ok (), s)) ∧
    (s.isConnected = true → r = .ok () →
      disconnect s r = (.ok (), { s with isConnected := false, readyState := .disconnected })) ∧
    (∀ e : JsError, s.isConnected = true → r = .error e →
      disconnect s r = (.error e, s)) := by
  cases hb : s.isConnected <;> cases r <;>
    simp [disconnect, hb]

/-- Witness for the amended C6 at concrete states and close outcomes. -/
theorem disconnect_amended_witness :
    disconnect initialState (.ok ()) = (.ok (), initialState) ∧
    disconnect connectedIdleState (.ok ()) =
      (.ok (), { connectedIdleState with isConnected := false, readyState := .disconnected }) ∧
    disconnect connectedIdleState (.error (.driverClose "x")) =
      (.error (.driverClose "x"), connectedIdleState) :=
  ⟨(disconnect_amended initialState (.ok ())).1 rfl,
    (disconnect_amended connectedIdleState (.ok ())).2.1 rfl rfl,
    (disconnect_amended connectedIdleState (.error (.driverClose "x"))).2.2
      (.driverClose "x") rfl rfl⟩

theorem jsLookup_eq_of_perm (l₁ l₂ : List (String × String)) (hp : l₁.Perm l₂)
    (hn : (l₁.map Prod.fst).Nodup) (k : String) :
    jsLookup l₁ k = jsLookup l₂ k := by
  induction hp with
  | nil => rfl
  | cons x hp ih =>
      obtain ⟨hx, hn'⟩ := by simpa using hn
      obtain ⟨x1, x2⟩ := x
      by_cases hk : k = x1
      · simp [jsLookup, hk]
      · simp only [jsLookup, if_neg hk]
        exact ih hn'
  | swap x y l =>
      obtain ⟨y1, y2⟩ := y
      obtain ⟨x1, x2⟩ := x
      have hxy : y1 ≠ x1 := by
        have := by simpa using hn
        exact this.1.1
      by_cases hky : k = y1 <;> by_cases hkx : k = x1
      · exact absurd (hky.symm.trans hkx) hxy
      · simp [jsLookup, hky, hkx, hxy]
      · simp [jsLookup, hky, hkx, Ne.symm hxy]
      · simp [jsLookup, hky, hkx]
  | trans hp₁ hp₂ ih₁ ih₂ =>
      have hn₂ := ((hp₁.map Prod.fst).nodup_iff).mp hn
      exact (ih₁ hn).trans (ih₂ hn₂)

/-- C7: the overall verdict of the health classifier equals the strict
precedence fold the spec describes (critical = application and the
connection's "database" entry, warning = memory, cpu, environment); and the
verdict is invariant under any permutation of the checks map (with distinct
subsystem names), so the order in which the probes are listed never
matters. -/
theorem calculateOverallHealth_fold_perm :
    (∀ l : List (String × String), calculateOverallHealth l = overallHealthSpecFold l) ∧
    (∀ l₁ l₂ : List (String × String), l₁.Perm l₂ → (l₁.map Prod.fst).Nodup →
      calculateOverallHealth l₁ = calculateOverallHealth l₂) := by
  constructor
  · intro l
    rfl
  · intro l₁ l₂ hp hn
    have he : statusNotHealthy l₁ = statusNotHealthy l₂ := by
      funext name
      unfold statusNotHealthy
      rw [jsLookup_eq_of_perm l₁ l₂ hp hn name]
    simp only [calculateOverallHealth, he]

/-- Witness for C7: permuting two concrete check lists leaves the verdict
unchanged. -/
theorem calculateOverallHealth_fold_perm_witness :
    calculateOverallHealth [("database", "unhealthy"), ("application", "healthy")] =
      calculateOverallHealth [("application", "healthy"), ("database", "unhealthy")] :=
  calculateOverallHealth_fold_perm.2 _ _
    (List.Perm.swap ("application", "healthy") ("database", "unhealthy") [])
    (by decide)

/-- C8 is false as stated: an exception in the database probe is caught but
recorded as status "unhealthy" (not "error"), and an exception in the
unguarded memory computation is not isolated at all — it aborts every
remaining probe and the aggregation, turning the whole request into a 500
internal error. -/
theorem detailedHealth_isolation_cex :
    getDetailedHealth dbThrowRun =
      .ok (APIResponseM.mkSuccess
        ⟨"unhealthy", detailedChecks dbThrowRun⟩ "Some systems have issues" 207) ∧
    jsLookup (detailedChecks dbThrowRun) "database" = some "unhealthy" ∧
    ("unhealthy" : String) ≠ "error" ∧
    getDetailedHealth memThrowRun = .error (.internalServerError "Health check failed") := by
  refine ⟨rfl, rfl, ?_, rfl⟩
  decide

/-- C8 amended: only the database, cpu, disk and dependencies sections are
individually guarded.  An exception in the cpu or disk probe becomes a
status-"error" entry for that subsystem only; one in the database probe
becomes a status-"unhealthy" entry; one in the dependencies probe yields the
"healthy" fallback entry; each of these entries depends only on its own
probe's outcome, so other subsystems are unaffected.  An exception in the
unguarded memory computation instead aborts the handler, which forwards a
500 internal error.  When the memory computation succeeds the handler always
replies (never aborts), with the assembled checks map. -/
theorem detailedHealth_isolation_amended (r : ProbeRun) :
    (∀ e : String, r.memProbe = .error e →
      getDetailedHealth r = .error (.internalServerError "Health check failed")) ∧
    (r.memProbe = .ok () → ∃ resp : APIResponseM DetailedData,
      getDetailedHealth r = .ok resp ∧ resp.data.checks = detailedChecks r) ∧
    (∀ e : String, r.cpuProbe = .error e →
      jsLookup (detailedChecks r) "cpu" = some "error") ∧
    (∀ e : String, r.dbProbe = .error e →
      jsLookup (detailedChecks r) "database" = some "unhealthy") ∧
    (∀ e : String, r.diskProbe = .error e → r.isWindows = false →
      jsLookup (detailedChecks r) "disk" = some "error") ∧
    (∀ e : String, r.depsProbe = .error e →
      jsLookup (detailedChecks r) "dependencies" = some "healthy") ∧
    (∀ r' : ProbeRun, r.cpuProbe = r'.cpuProbe →
      jsLookup (detailedChecks r) "cpu" = jsLookup (detailedChecks r') "cpu") ∧
    (∀ r' : ProbeRun, r.dbProbe = r'.dbProbe →
      jsLookup (detailedChecks r) "database" = jsLookup (detailedChecks r') "database") := by
  refine ⟨?_, ?_, ?_, ?_, ?_, ?_, ?_, ?_⟩
  · intro e he
    simp [getDetailedHealth, he]
  · intro hm
    by_cases hov : calculateOverallHealth (detailedChecks r) = "healthy"
    · exact ⟨APIResponseM.mkSuccess
          ⟨calculateOverallHealth (detailedChecks r), detailedChecks r⟩
          "All systems operational" 200,
        by simp [getDetailedHealth, hm, hov], rfl⟩
    · exact ⟨APIResponseM.mkSuccess
          ⟨calculateOverallHealth (detailedChecks r), detailedChecks r⟩
          "Some systems have issues" 207,
        by simp [getDetailedHealth, hm, hov], rfl⟩
  · intro e he
    simp [detailedChecks, jsLookup, he]
  · intro e he
    simp [detailedChecks, jsLookup, he]
  · intro e he hw
    simp [detailedChecks, jsLookup, he, hw]
  · intro e he
    simp [detailedChecks, jsLookup, he]
  · intro r' hcpu
    simp [detailedChecks, jsLookup, hcpu]
  · intro r' hdb
    simp [detailedChecks, jsLookup, hdb]

/-- Witness for the amended C8: a throwing memory computation aborts with a
500, a throwing database probe yields an "unhealthy" entry. -/
theorem detailedHealth_isolation_amended_witness :
    getDetailedHealth memThrowRun = .error (.internalServerError "Health check failed") ∧
    jsLookup (detailedChecks dbThrowRun) "database" = some "unhealthy" :=
  ⟨(detailedHealth_isolation_amended memThrowRun).1 "oom" rfl,
    (detailedHealth_isolation_amended dbThrowRun).2.2.2.1 "boom" rfl⟩

/-- C9: the readiness probe replies 200 with `data.ready = true` iff the
manager's `isHealthy()` resolves true; in every other case it replies 503
with `data.ready = false` in the standard envelope (`success = false`);
`isHealthy()` itself never rejects, so these are the only cases. -/
theorem readiness_spec (s : DBState) (p : Bool) :
    (((getReadinessProbe (isHealthy s p).1).statusCode = 200 ∧
        (getReadinessProbe (isHealthy s p).1).data = true) ↔
      (isHealthy s p).1 = true) ∧
    ((isHealthy s p).1 = false →
      (getReadinessProbe (isHealthy s p).1).statusCode = 503 ∧
      (getReadinessProbe (isHealthy s p).1).data = false ∧
      (getReadinessProbe (isHealthy s p).1).success = false) := by
  cases h : (isHealthy s p).1 <;>
    simp [getReadinessProbe, APIResponseM.mkSuccess, APIResponseM.mkServiceUnavailable]

/-- Witness for C9 at a Disconnected state: HTTP 503 and `ready = false`. -/
theorem readiness_spec_witness :
    (getReadinessProbe (isHealthy initialState true).1).statusCode = 503 ∧
    (getReadinessProbe (isHealthy initialState true).1).data = false ∧
    (getReadinessProbe (isHealthy initialState true).1).success = false :=
  (readiness_spec initialState true).2 rfl

/-- C10: every response the detailed-health handler produces itself (the
`Except.ok` outcomes, i.e. not routed through the error middleware) is
built with `APIResponse.success` and therefore carries `success = true` —
including the 207 replies sent when the overall verdict is "degraded" or
"unhealthy". -/
theorem detailedHealth_success_envelope (r : ProbeRun)
    (resp : APIResponseM DetailedData) (h : getDetailedHealth r = .ok resp) :
    resp.success = true ∧
    (resp.data.status = "healthy" → resp.statusCode = 200) ∧
    (resp.data.status ≠ "healthy" → resp.statusCode = 207) := by
  unfold getDetailedHealth at h
  cases hm : r.memProbe with
  | error e =>
      rw [hm] at h
      cases h
  | ok u =>
      rw [hm] at h
      by_cases hov : calculateOverallHealth (detailedChecks r) = "healthy" <;>
        · simp only [hov, if_true, if_false, Except.ok.injEq, reduceIte] at h
          subst h
          simp [APIResponseM.mkSuccess, hov]

/-- Witness for C10 at a degraded run: 207 with `success = true`. -/
theorem detailedHealth_success_envelope_witness :
    (APIResponseM.mkSuccess
        (⟨"degraded", detailedChecks degradedRun⟩ : DetailedData)
        "Some systems have issues" 207).success = true ∧
    (APIResponseM.mkSuccess
        (⟨"degraded", detailedChecks degradedRun⟩ : DetailedData)
        "Some systems have issues" 207).statusCode = 207 :=
  ⟨(detailedHealth_success_envelope degradedRun _ rfl).1,
    (detailedHealth_success_envelope degradedRun _ rfl).2.2 (by decide)⟩

end CareerSewa
